import Mathlib

/-!
Shallow embedding of the keepalived VRRP DBus control-plane bridge
(`src/keepalived/vrrp/vrrp_dbus.c`) and of the stats printer
(`src/keepalived/vrrp/vrrp_print.c`), with theorems settling the spec
claims about the name codec, the call bridge, the instance registry,
the owner-thread handler and the stats dump.

C strings are modelled as `List Char` (the bytes before the NUL
terminator, hence every listed character is non-NUL); C `int` as `Int`,
unsigned values and GLib handles as `Nat`.
-/

namespace VrrpDbus

/-- ASCII alphanumeric test, the POSIX-locale `isalnum` used by
`set_valid_path` and `valid_path_cmp` in vrrp_dbus.c. -/
def c_isalnum (c : Char) : Bool :=
  ('A' ≤ c && c ≤ 'Z') || ('a' ≤ c && c ≤ 'z') || ('0' ≤ c && c ≤ '9')

/-- The filler character used for non-alphanumeric characters:
"The only characters that are valid in a dbus path are A-Z, a-z, 0-9, _". -/
def filler : Char := '_'

/-- `set_valid_path` (vrrp_dbus.c lines 105-120): copies the input,
replacing every character that is not alphanumeric with `'_'`, and
NUL-terminates.  The loop walks both pointers in lock step, so the
output has exactly the input's length. -/
def set_valid_path : List Char → List Char
  | [] => []
  | c :: rest => (if ¬ c_isalnum c then filler else c) :: set_valid_path rest

/-- `valid_path_cmp` (vrrp_dbus.c lines 122-135): returns `true` on a
MISMATCH.  While both strings have characters left: a non-alphanumeric
original character requires the candidate character to be `'_'`, an
alphanumeric one requires exact equality.  After the loop the result is
`*path != *valid_path`, i.e. `false` only when both strings ended
together (C-string characters are non-NUL, so if exactly one string has
ended the final comparison is NUL against a non-NUL character). -/
def valid_path_cmp : List Char → List Char → Bool
  | p :: ps, v :: vs =>
    if ¬ c_isalnum p then
      if v ≠ filler then true else valid_path_cmp ps vs
    else if p ≠ v then true
    else valid_path_cmp ps vs
  | [], [] => false
  | _, _ => true

/-- The pointwise agreement demanded by the codec: where the original
character is alphanumeric the candidate must equal it, elsewhere the
candidate must be the filler `'_'`. -/
def codec_agrees (a b : Char) : Prop :=
  b = if c_isalnum a then a else filler

theorem set_valid_path_forall₂ (n : List Char) :
    List.Forall₂ codec_agrees n (set_valid_path n) := by
  induction n with
  | nil => exact List.Forall₂.nil
  | cons c cs ih =>
    by_cases h : c_isalnum c
    · simpa [set_valid_path, codec_agrees, h] using ih
    · simpa [set_valid_path, codec_agrees, h] using ih

theorem valid_path_cmp_iff (p v : List Char) :
    valid_path_cmp p v = false ↔ List.Forall₂ codec_agrees p v := by
  induction p generalizing v with
  | nil =>
    cases v with
    | nil => simp [valid_path_cmp]
    | cons b bs => simp [valid_path_cmp]
  | cons a as ih =>
    cases v with
    | nil => simp [valid_path_cmp]
    | cons b bs =>
      by_cases h : c_isalnum a
      · by_cases hab : a = b
        · subst hab
          simp [valid_path_cmp, h, ih, codec_agrees]
        · have hba : ¬ (b = a) := fun hba => hab hba.symm
          simp [valid_path_cmp, h, hab, codec_agrees, hba]
      · simp [valid_path_cmp, h, ih, codec_agrees]

/-- Claim C8: `set_valid_path` returns a string of exactly the input's
length in which every alphanumeric character of the input is preserved
at its position and every non-alphanumeric character is replaced by the
filler `'_'`; the transform is total (it is a total Lean function on
all character lists). -/
theorem claim_c8_set_valid_path (n : List Char) :
    (set_valid_path n).length = n.length ∧
    List.Forall₂ codec_agrees n (set_valid_path n) :=
  ⟨((set_valid_path_forall₂ n).length_eq).symm, set_valid_path_forall₂ n⟩

/-- Claim C7: matching (the negation of `valid_path_cmp`) succeeds
exactly when the two strings have equal length and agree pointwise in
the codec's sense (candidate equals the original where the original is
alphanumeric, equals `'_'` elsewhere); in particular the comparison
reports a mismatch whenever the lengths differ. -/
theorem claim_c7_valid_path_cmp_matches (p v : List Char) :
    (valid_path_cmp p v = false ↔
      p.length = v.length ∧ List.Forall₂ codec_agrees p v) ∧
    (p.length ≠ v.length → valid_path_cmp p v = true) := by
  constructor
  · rw [valid_path_cmp_iff]
    exact ⟨fun hf => ⟨hf.length_eq, hf⟩, fun hc => hc.2⟩
  · intro hne
    cases hcall : valid_path_cmp p v with
    | false => exact absurd ((valid_path_cmp_iff p v).mp hcall).length_eq hne
    | true => rfl

/-- Witness for C7 at a concrete input: a length mismatch makes
`valid_path_cmp` report a mismatch. -/
theorem claim_c7_witness : valid_path_cmp ['a'] [] = true :=
  (claim_c7_valid_path_cmp_matches ['a'] []).2 (by decide)

/-- Claim C6: round trip of canonicalization: for every name N,
`valid_path_cmp N (set_valid_path N)` reports no mismatch; and whenever
two names canonicalize identically, each matches the other's canonical
segment (intentional collision tolerance). -/
theorem claim_c6_roundtrip :
    (∀ n : List Char, valid_path_cmp n (set_valid_path n) = false) ∧
    (∀ n1 n2 : List Char, set_valid_path n1 = set_valid_path n2 →
      valid_path_cmp n1 (set_valid_path n2) = false) := by
  have hrt : ∀ n : List Char, valid_path_cmp n (set_valid_path n) = false :=
    fun n => (valid_path_cmp_iff n (set_valid_path n)).mpr (set_valid_path_forall₂ n)
  refine ⟨hrt, fun n1 n2 heq => ?_⟩
  rw [← heq]
  exact hrt n1

/-- Witness for C6 at a concrete input: "eth-0" and "eth.0" canonicalize
to the same segment "eth_0", and "eth-0" matches the canonicalization of
"eth.0". -/
theorem claim_c6_witness :
    valid_path_cmp ['e', 't', 'h', '-', '0']
      (set_valid_path ['e', 't', 'h', '.', '0']) = false :=
  claim_c6_roundtrip.2 ['e', 't', 'h', '-', '0'] ['e', 't', 'h', '.', '0']
    (by decide)

/-- `dbus_action_t` (vrrp_dbus.c lines 64-74). -/
inductive dbus_action_t
  | DBUS_ACTION_NONE
  | DBUS_PRINT_DATA
  | DBUS_PRINT_STATS
  | DBUS_RELOAD
  | DBUS_CREATE_INSTANCE
  | DBUS_DESTROY_INSTANCE
  | DBUS_SEND_GARP
  | DBUS_GET_NAME
  | DBUS_GET_STATUS
deriving DecidableEq, Repr

/-- `dbus_error_t` (vrrp_dbus.c lines 76-80). -/
inductive dbus_error_t
  | DBUS_SUCCESS
  | DBUS_INTERFACE_NOT_FOUND
  | DBUS_OBJECT_ALREADY_EXISTS
deriving DecidableEq, Repr

/-- Linux address-family constants used for `vrrp->family`. -/
def AF_UNSPEC : Nat := 0

def AF_INET : Nat := 2

def AF_INET6 : Nat := 10

/-- `IFNAMSIZ`: the queue entry's name buffer is `char str[IFNAMSIZ+1]`,
so it holds at most `IFNAMSIZ` characters plus the NUL terminator. -/
def IFNAMSIZ : Nat := 16

/-- A live VRRP instance, as read by the bridge: instance name
(`vrrp->iname`), base interface name (`IF_BASE_IFP(vrrp->ifp)->ifname`),
virtual-router id, address family and current state. -/
structure vrrp_t where
  iname : List Char
  ifname : List Char
  vrid : Int
  family : Nat
  state : Int
deriving DecidableEq, Repr

/-- `get_vrrp_instance` (vrrp_dbus.c lines 137-156): walks the live
instance list and returns the first instance whose vrid and family
equal the requested ones and whose base interface name matches the
canonical segment (`!valid_path_cmp(ifname_of_instance, ifname)`). -/
def get_vrrp_instance (instances : List vrrp_t) (ifname : List Char)
    (vrid : Int) (family : Nat) : Option vrrp_t :=
  match instances with
  | [] => none
  | vrrp :: rest =>
    if vrrp.vrid = vrid ∧ vrrp.family = family ∧
        valid_path_cmp vrrp.ifname ifname = false then
      some vrrp
    else
      get_vrrp_instance rest ifname vrid family

/-- The `objects` registry: a map from instance name to the non-zero
GDBus registration handle, modelled as an association list (GLib hash
tables hold each key at most once). -/
def registry : Type := List (List Char × Nat)

/-- `g_hash_table_lookup`: the value bound to `key`, if any. -/
def g_hash_table_lookup (objects : List (List Char × Nat))
    (key : List Char) : Option Nat :=
  match objects with
  | [] => none
  | (k, v) :: rest => if k = key then some v else g_hash_table_lookup rest key

/-- `g_hash_table_remove`: drops the binding of `key` (a GLib hash table
holds a key at most once, so removing the first binding suffices). -/
def g_hash_table_remove (objects : List (List Char × Nat))
    (key : List Char) : List (List Char × Nat) :=
  match objects with
  | [] => []
  | (k, v) :: rest =>
    if k = key then rest else (k, v) :: g_hash_table_remove rest key

/-- `g_hash_table_insert`: binds `key` to `v`, replacing any existing
binding (GLib replaces in place; on an association list, remove then
append). -/
def g_hash_table_insert (objects : List (List Char × Nat))
    (key : List Char) (v : Nat) : List (List Char × Nat) :=
  g_hash_table_remove objects key ++ [(key, v)]

/-- `dbus_create_object_params` (vrrp_dbus.c lines 629-652).  If an
object for `instance_name` is already registered, log and return
`DBUS_OBJECT_ALREADY_EXISTS` without touching anything.  Otherwise
register the object path with the bus transport — the transport's
result, a handle that is zero on failure, is the `registered`
parameter — and record the handle in the registry only when it is
non-zero; the return value is `DBUS_SUCCESS` in either case. -/
def dbus_create_object_params (objects : List (List Char × Nat))
    (instance_name : List Char) (registered : Nat) :
    dbus_error_t × List (List Char × Nat) × List String :=
  if (g_hash_table_lookup objects instance_name).isSome then
    (dbus_error_t.DBUS_OBJECT_ALREADY_EXISTS, objects,
      ["An object for instance already exists"])
  else if registered ≠ 0 then
    (dbus_error_t.DBUS_SUCCESS,
      g_hash_table_insert objects instance_name registered,
      ["Added DBus object for instance"])
  else
    (dbus_error_t.DBUS_SUCCESS, objects, [])

/-- `dbus_unregister_object` (vrrp_dbus.c lines 660-669): if the name is
bound, remove it from the registry (and unregister it with the bus
transport) and log the deletion; otherwise only log that the object was
not found.  The function returns nothing: it never reports an error to
its caller. -/
def dbus_unregister_object (objects : List (List Char × Nat))
    (str : List Char) : List (List Char × Nat) × List String :=
  match g_hash_table_lookup objects str with
  | some _ =>
    (g_hash_table_remove objects str, ["Deleted DBus object for instance"])
  | none => (objects, ["DBus object not found for instance"])

/-- The `GVariant *args` member of a queue entry: `NULL` for most
actions, `(u)` holding the family for GetName/GetStatus, `(su)` holding
the new instance name and family digit for CreateInstance. -/
inductive GVariantArgs
  | null
  | vFamily (family : Nat)
  | vNameFamily (name : List Char) (family : Nat)
deriving DecidableEq, Repr

/-- `dbus_queue_ent_t` (vrrp_dbus.c lines 82-88). -/
structure dbus_queue_ent_t where
  action : dbus_action_t
  reply : dbus_error_t
  str : List Char
  val : Int
  args : GVariantArgs
deriving DecidableEq, Repr

/-- The family conversion done by the CreateInstance branch of
`handle_dbus_msg`: `family == 4 ? AF_INET : family == 6 ? AF_INET6 :
AF_UNSPEC`. -/
def family_of_digit (family : Nat) : Nat :=
  if family = 4 then AF_INET else if family = 6 then AF_INET6 else AF_UNSPEC

/-- The owner-thread dispatch of one dequeued entry: the body of
`handle_dbus_msg` (vrrp_dbus.c lines 770-831) after `get_queue_ent`
returned the entry.  `registered` stands for the handle the bus
transport would return should the CreateInstance branch register an
object.  Returns the completed entry, the updated registry and the log
messages.  The entry's reply is first set to `DBUS_SUCCESS` and only
the CreateInstance, SendGarp and GetName/GetStatus branches ever change
it. -/
def handle_dbus_msg_ent (objects : List (List Char × Nat))
    (instances : List vrrp_t) (registered : Nat) (ent : dbus_queue_ent_t) :
    dbus_queue_ent_t × List (List Char × Nat) × List String :=
  let ent0 := { ent with reply := dbus_error_t.DBUS_SUCCESS }
  match ent0.action with
  | dbus_action_t.DBUS_PRINT_DATA =>
    (ent0, objects, ["Printing VRRP data on DBus request"])
  | dbus_action_t.DBUS_PRINT_STATS =>
    (ent0, objects, ["Printing VRRP stats on DBus request"])
  | dbus_action_t.DBUS_CREATE_INSTANCE =>
    match ent0.args with
    | GVariantArgs.vNameFamily name _family =>
      let res := dbus_create_object_params objects name registered
      ({ ent0 with reply := res.1 }, res.2.1, res.2.2)
    | _ => (ent0, objects, [])
  | dbus_action_t.DBUS_DESTROY_INSTANCE =>
    let res := dbus_unregister_object objects ent0.str
    (ent0, res.1, res.2)
  | dbus_action_t.DBUS_SEND_GARP =>
    match instances.find? (fun vrrp => vrrp.iname == ent0.str) with
    | some vrrp =>
      ({ ent0 with reply := dbus_error_t.DBUS_SUCCESS }, objects,
        ["Sending garps on " ++ String.mk vrrp.iname ++ " on DBus request"])
    | none =>
      ({ ent0 with reply := dbus_error_t.DBUS_INTERFACE_NOT_FOUND },
        objects, [])
  | dbus_action_t.DBUS_GET_NAME =>
    match ent0.args with
    | GVariantArgs.vFamily family =>
      match get_vrrp_instance instances ent0.str ent0.val family with
      | some vrrp =>
        ({ ent0 with
            str := vrrp.iname.take IFNAMSIZ
            reply := dbus_error_t.DBUS_SUCCESS }, objects, [])
      | none =>
        ({ ent0 with reply := dbus_error_t.DBUS_INTERFACE_NOT_FOUND },
          objects, [])
    | _ =>
      ({ ent0 with reply := dbus_error_t.DBUS_INTERFACE_NOT_FOUND },
        objects, [])
  | dbus_action_t.DBUS_GET_STATUS =>
    match ent0.args with
    | GVariantArgs.vFamily family =>
      match get_vrrp_instance instances ent0.str ent0.val family with
      | some vrrp =>
        ({ ent0 with
            val := vrrp.state
            reply := dbus_error_t.DBUS_SUCCESS }, objects, [])
      | none =>
        ({ ent0 with reply := dbus_error_t.DBUS_INTERFACE_NOT_FOUND },
          objects, [])
    | _ =>
      ({ ent0 with reply := dbus_error_t.DBUS_INTERFACE_NOT_FOUND },
        objects, [])
  | _ => (ent0, objects, [])

theorem g_hash_table_lookup_eq_none (objects : List (List Char × Nat))
    (key : List Char) :
    g_hash_table_lookup objects key = none ↔ key ∉ objects.map Prod.fst := by
  induction objects with
  | nil => simp [g_hash_table_lookup]
  | cons p rest ih =>
    obtain ⟨k, v⟩ := p
    by_cases hk : k = key
    · subst hk
      simp [g_hash_table_lookup]
    · simp [g_hash_table_lookup, hk, ih, Ne.symm hk]

theorem g_hash_table_remove_of_lookup_none (objects : List (List Char × Nat))
    (key : List Char) (h : g_hash_table_lookup objects key = none) :
    g_hash_table_remove objects key = objects := by
  induction objects with
  | nil => rfl
  | cons p rest ih =>
    obtain ⟨k, v⟩ := p
    by_cases hk : k = key
    · subst hk
      simp [g_hash_table_lookup] at h
    · simp [g_hash_table_lookup, hk] at h
      simp [g_hash_table_remove, hk, ih h]

theorem g_hash_table_remove_keys_sublist (objects : List (List Char × Nat))
    (key : List Char) :
    ((g_hash_table_remove objects key).map Prod.fst).Sublist
      (objects.map Prod.fst) := by
  induction objects with
  | nil => simp [g_hash_table_remove]
  | cons p rest ih =>
    obtain ⟨k, v⟩ := p
    by_cases hk : k = key
    · simp [g_hash_table_remove, hk]
    · simp [g_hash_table_remove, hk]
      exact ih

theorem g_hash_table_remove_keys_nodup (objects : List (List Char × Nat))
    (key : List Char) (h : (objects.map Prod.fst).Nodup) :
    ((g_hash_table_remove objects key).map Prod.fst).Nodup :=
  List.Nodup.sublist (g_hash_table_remove_keys_sublist objects key) h

theorem dbus_create_object_params_keys_nodup
    (objects : List (List Char × Nat)) (instance_name : List Char)
    (registered : Nat) (h : (objects.map Prod.fst).Nodup) :
    (((dbus_create_object_params objects instance_name registered).2.1).map
      Prod.fst).Nodup := by
  unfold dbus_create_object_params
  by_cases hl : (g_hash_table_lookup objects instance_name).isSome
  · simpa [hl] using h
  · have hnone : g_hash_table_lookup objects instance_name = none :=
      Option.not_isSome_iff_eq_none.mp hl
    by_cases hr : registered ≠ 0
    · have hmem := (g_hash_table_lookup_eq_none objects instance_name).mp hnone
      simp [hl, hr, g_hash_table_insert,
        g_hash_table_remove_of_lookup_none objects instance_name hnone,
        List.nodup_append, h, hmem]
    · simpa [hl, hr] using h

theorem dbus_unregister_object_keys_nodup (objects : List (List Char × Nat))
    (str : List Char) (h : (objects.map Prod.fst).Nodup) :
    (((dbus_unregister_object objects str).1).map Prod.fst).Nodup := by
  unfold dbus_unregister_object
  cases hl : g_hash_table_lookup objects str with
  | some v => simpa [hl] using g_hash_table_remove_keys_nodup objects str h
  | none => simpa [hl] using h

/-- A registry operation as the owner thread performs it on behalf of
the bridge: a CreateInstance (with the handle the bus transport
returned, zero on registration failure) or a DestroyInstance. -/
inductive reg_op
  | create (instance_name : List Char) (registered : Nat)
  | destroy (name : List Char)
deriving DecidableEq, Repr

/-- Apply one registry operation. -/
def apply_reg_op (objects : List (List Char × Nat)) :
    reg_op → List (List Char × Nat)
  | reg_op.create n r => (dbus_create_object_params objects n r).2.1
  | reg_op.destroy n => (dbus_unregister_object objects n).1

/-- Apply a sequence of registry operations, oldest first. -/
def apply_reg_ops (objects : List (List Char × Nat)) :
    List reg_op → List (List Char × Nat)
  | [] => objects
  | op :: ops => apply_reg_ops (apply_reg_op objects op) ops

theorem apply_reg_op_keys_nodup (objects : List (List Char × Nat))
    (op : reg_op) (h : (objects.map Prod.fst).Nodup) :
    ((apply_reg_op objects op).map Prod.fst).Nodup := by
  cases op with
  | create n r => exact dbus_create_object_params_keys_nodup objects n r h
  | destroy n => exact dbus_unregister_object_keys_nodup objects n h

theorem apply_reg_ops_keys_nodup (objects : List (List Char × Nat))
    (ops : List reg_op) (h : (objects.map Prod.fst).Nodup) :
    ((apply_reg_ops objects ops).map Prod.fst).Nodup := by
  induction ops generalizing objects with
  | nil => exact h
  | cons op ops ih =>
    exact ih (apply_reg_op objects op) (apply_reg_op_keys_nodup objects op h)

theorem get_vrrp_instance_eq_find? (instances : List vrrp_t)
    (ifname : List Char) (vrid : Int) (family : Nat) :
    get_vrrp_instance instances ifname vrid family =
      instances.find? (fun vrrp =>
        decide (vrrp.vrid = vrid) && decide (vrrp.family = family) &&
          !(valid_path_cmp vrrp.ifname ifname)) := by
  induction instances with
  | nil => rfl
  | cons vrrp rest ih =>
    simp only [get_vrrp_instance, List.find?_cons]
    by_cases h1 : vrrp.vrid = vrid
    · by_cases h2 : vrrp.family = family
      · cases h3 : valid_path_cmp vrrp.ifname ifname with
        | false => simp [h1, h2, h3]
        | true => simp [h1, h2, h3, ih]
      · simp [h1, h2, ih]
    · simp [h1, ih]

/-- Claim C4: a CreateInstance register of a name that is already in the
registry returns `DBUS_OBJECT_ALREADY_EXISTS` and changes nothing, so
the originally registered handle stays in place; and after any sequence
of create/destroy operations starting from the empty registry, each name
is bound at most once (the key list has no duplicates). -/
theorem claim_c4_registry_uniqueness :
    (∀ (objects : List (List Char × Nat)) (name : List Char)
        (h0 registered : Nat),
      g_hash_table_lookup objects name = some h0 →
        (dbus_create_object_params objects name registered).1 =
          dbus_error_t.DBUS_OBJECT_ALREADY_EXISTS ∧
        (dbus_create_object_params objects name registered).2.1 = objects ∧
        g_hash_table_lookup
          (dbus_create_object_params objects name registered).2.1 name =
          some h0) ∧
    (∀ ops : List reg_op, ((apply_reg_ops [] ops).map Prod.fst).Nodup) := by
  constructor
  · intro objects name h0 registered hl
    have hs : (g_hash_table_lookup objects name).isSome := by simp [hl]
    refine ⟨?_, ?_, ?_⟩ <;> simp [dbus_create_object_params, hs, hl]
  · intro ops
    exact apply_reg_ops_keys_nodup [] ops (by simp)

/-- Witness for C4 at a concrete input: the registry binds "R1" to
handle 5; a second register of "R1" with handle 7 yields AlreadyExists
and handle 5 stays bound. -/
theorem claim_c4_witness :
    (dbus_create_object_params [(['R', '1'], 5)] ['R', '1'] 7).1 =
      dbus_error_t.DBUS_OBJECT_ALREADY_EXISTS ∧
    (dbus_create_object_params [(['R', '1'], 5)] ['R', '1'] 7).2.1 =
      [(['R', '1'], 5)] ∧
    g_hash_table_lookup
      (dbus_create_object_params [(['R', '1'], 5)] ['R', '1'] 7).2.1
      ['R', '1'] = some 5 :=
  claim_c4_registry_uniqueness.1 [(['R', '1'], 5)] ['R', '1'] 5 7 (by decide)

/-- Claim C10: when a CreateInstance request names an instance that is
not yet registered and the bus-transport registration fails (handle 0),
the owner-thread handler still replies `DBUS_SUCCESS` while adding no
registry entry; consequently a subsequent CreateInstance of the same
name (against the unchanged registry, with any transport handle) also
replies `DBUS_SUCCESS`. -/
theorem claim_c10_create_transport_failure
    (objects : List (List Char × Nat)) (instances : List vrrp_t)
    (ent : dbus_queue_ent_t) (name : List Char) (family registered2 : Nat)
    (ha : ent.action = dbus_action_t.DBUS_CREATE_INSTANCE)
    (hargs : ent.args = GVariantArgs.vNameFamily name family)
    (hn : g_hash_table_lookup objects name = none) :
    (handle_dbus_msg_ent objects instances 0 ent).1.reply =
      dbus_error_t.DBUS_SUCCESS ∧
    (handle_dbus_msg_ent objects instances 0 ent).2.1 = objects ∧
    (handle_dbus_msg_ent objects instances registered2 ent).1.reply =
      dbus_error_t.DBUS_SUCCESS := by
  obtain ⟨ac, rp, st, vl, ag⟩ := ent
  simp only at ha hargs
  subst ha
  subst hargs
  have hs : ¬ (g_hash_table_lookup objects name).isSome = true := by
    simp [hn]
  refine ⟨?_, ?_, ?_⟩
  · simp [handle_dbus_msg_ent, dbus_create_object_params, hs]
  · simp [handle_dbus_msg_ent, dbus_create_object_params, hs]
  · by_cases hr : registered2 = 0
    · simp [handle_dbus_msg_ent, dbus_create_object_params, hs, hr]
    · simp [handle_dbus_msg_ent, dbus_create_object_params, hs, hr]

/-- Witness for C10 at a concrete input: empty registry, CreateInstance
of "R1" with transport handle 0 replies Success and leaves the registry
empty; repeating it with handle 9 also replies Success. -/
theorem claim_c10_witness :
    (handle_dbus_msg_ent [] []
      0 ⟨dbus_action_t.DBUS_CREATE_INSTANCE, dbus_error_t.DBUS_SUCCESS,
        ['e', 't', 'h', '0'], 7,
        GVariantArgs.vNameFamily ['R', '1'] 4⟩).1.reply =
      dbus_error_t.DBUS_SUCCESS ∧
    (handle_dbus_msg_ent [] []
      0 ⟨dbus_action_t.DBUS_CREATE_INSTANCE, dbus_error_t.DBUS_SUCCESS,
        ['e', 't', 'h', '0'], 7,
        GVariantArgs.vNameFamily ['R', '1'] 4⟩).2.1 = [] ∧
    (handle_dbus_msg_ent [] []
      9 ⟨dbus_action_t.DBUS_CREATE_INSTANCE, dbus_error_t.DBUS_SUCCESS,
        ['e', 't', 'h', '0'], 7,
        GVariantArgs.vNameFamily ['R', '1'] 4⟩).1.reply =
      dbus_error_t.DBUS_SUCCESS :=
  claim_c10_create_transport_failure [] []
    ⟨dbus_action_t.DBUS_CREATE_INSTANCE, dbus_error_t.DBUS_SUCCESS,
      ['e', 't', 'h', '0'], 7, GVariantArgs.vNameFamily ['R', '1'] 4⟩
    ['R', '1'] 4 9 rfl rfl (by decide)

/-- Counterexample for C2 at a concrete input: a DestroyInstance of
"R1" against the empty registry replies `DBUS_SUCCESS`, not the
`DBUS_INTERFACE_NOT_FOUND` the claim states (only the log line records
that the object was missing). -/
theorem claim_c2_counterexample :
    (handle_dbus_msg_ent [] []
      0 ⟨dbus_action_t.DBUS_DESTROY_INSTANCE, dbus_error_t.DBUS_SUCCESS,
        ['R', '1'], 0, GVariantArgs.null⟩).1.reply =
      dbus_error_t.DBUS_SUCCESS ∧
    dbus_error_t.DBUS_SUCCESS ≠ dbus_error_t.DBUS_INTERFACE_NOT_FOUND := by
  constructor
  · rfl
  · decide

/-- Claim C2 as amended: for every DestroyInstance request the
owner-thread handler replies `DBUS_SUCCESS` whether or not the name is
registered; when the name is absent it only logs "DBus object not
found" and leaves the registry unchanged; when the name is present it
removes the binding and logs the deletion. -/
theorem claim_c2_destroy_semantics
    (objects : List (List Char × Nat)) (instances : List vrrp_t)
    (registered : Nat) (ent : dbus_queue_ent_t)
    (ha : ent.action = dbus_action_t.DBUS_DESTROY_INSTANCE) :
    (handle_dbus_msg_ent objects instances registered ent).1.reply =
      dbus_error_t.DBUS_SUCCESS ∧
    (g_hash_table_lookup objects ent.str = none →
      (handle_dbus_msg_ent objects instances registered ent).2.1 = objects ∧
      (handle_dbus_msg_ent objects instances registered ent).2.2 =
        ["DBus object not found for instance"]) ∧
    (∀ h0 : Nat, g_hash_table_lookup objects ent.str = some h0 →
      (handle_dbus_msg_ent objects instances registered ent).2.1 =
        g_hash_table_remove objects ent.str ∧
      (handle_dbus_msg_ent objects instances registered ent).2.2 =
        ["Deleted DBus object for instance"]) := by
  obtain ⟨ac, rp, st, vl, ag⟩ := ent
  simp only at ha
  subst ha
  refine ⟨?_, ?_, ?_⟩
  · simp [handle_dbus_msg_ent, dbus_unregister_object]
  · intro hn
    simp [handle_dbus_msg_ent, dbus_unregister_object, hn]
  · intro h0 hsome
    simp [handle_dbus_msg_ent, dbus_unregister_object, hsome]

/-- Witness for C2's amended theorem at a concrete input: destroying
"R1" against the empty registry leaves it empty and logs "not found". -/
theorem claim_c2_witness :
    (handle_dbus_msg_ent [] []
      0 ⟨dbus_action_t.DBUS_DESTROY_INSTANCE, dbus_error_t.DBUS_SUCCESS,
        ['R', '1'], 0, GVariantArgs.null⟩).2.1 = ([] : List (List Char × Nat)) ∧
    (handle_dbus_msg_ent [] []
      0 ⟨dbus_action_t.DBUS_DESTROY_INSTANCE, dbus_error_t.DBUS_SUCCESS,
        ['R', '1'], 0, GVariantArgs.null⟩).2.2 =
      ["DBus object not found for instance"] :=
  (claim_c2_destroy_semantics [] [] 0
    ⟨dbus_action_t.DBUS_DESTROY_INSTANCE, dbus_error_t.DBUS_SUCCESS,
      ['R', '1'], 0, GVariantArgs.null⟩ rfl).2.1 (by decide)

/-- Claim C5: for every GetName/GetStatus request the owner-thread
handler leaves the registry untouched, resolves the live instance as
the first one whose vrid and family equal the request's exactly and
whose interface name matches the canonical segment under the codec's
predicate; when no instance matches the reply is
`DBUS_INTERFACE_NOT_FOUND`, and when one matches the reply is
`DBUS_SUCCESS` carrying the instance's name (GetName; copied into the
entry's `IFNAMSIZ`-bounded buffer, hence verbatim whenever it fits) or
its state enum (GetStatus). -/
theorem claim_c5_get_resolution
    (objects : List (List Char × Nat)) (instances : List vrrp_t)
    (registered : Nat) (ent : dbus_queue_ent_t) (family : Nat)
    (ha : ent.action = dbus_action_t.DBUS_GET_NAME ∨
      ent.action = dbus_action_t.DBUS_GET_STATUS)
    (hargs : ent.args = GVariantArgs.vFamily family) :
    (handle_dbus_msg_ent objects instances registered ent).2.1 = objects ∧
    get_vrrp_instance instances ent.str ent.val family =
      instances.find? (fun vrrp =>
        decide (vrrp.vrid = ent.val) && decide (vrrp.family = family) &&
          !(valid_path_cmp vrrp.ifname ent.str)) ∧
    (get_vrrp_instance instances ent.str ent.val family = none →
      (handle_dbus_msg_ent objects instances registered ent).1.reply =
        dbus_error_t.DBUS_INTERFACE_NOT_FOUND) ∧
    (∀ vrrp : vrrp_t,
      get_vrrp_instance instances ent.str ent.val family = some vrrp →
        (handle_dbus_msg_ent objects instances registered ent).1.reply =
          dbus_error_t.DBUS_SUCCESS ∧
        (ent.action = dbus_action_t.DBUS_GET_NAME →
          (handle_dbus_msg_ent objects instances registered ent).1.str =
            vrrp.iname.take IFNAMSIZ) ∧
        (ent.action = dbus_action_t.DBUS_GET_NAME →
          vrrp.iname.length ≤ IFNAMSIZ →
          (handle_dbus_msg_ent objects instances registered ent).1.str =
            vrrp.iname) ∧
        (ent.action = dbus_action_t.DBUS_GET_STATUS →
          (handle_dbus_msg_ent objects instances registered ent).1.val =
            vrrp.state)) := by
  obtain ⟨ac, rp, st, vl, ag⟩ := ent
  simp only at ha hargs
  subst hargs
  rcases ha with ha | ha
  · subst ha
    dsimp only
    refine ⟨?_, get_vrrp_instance_eq_find? instances st vl family,
      fun hn => ?_, fun vrrp hv => ?_⟩
    · rcases hres : get_vrrp_instance instances st vl family with _ | vrrp0 <;>
        simp [handle_dbus_msg_ent, hres]
    · simp [handle_dbus_msg_ent, hn]
    · refine ⟨?_, fun _ => ?_, fun _ hlen => ?_,
        fun hc => absurd hc (by decide)⟩
      · simp [handle_dbus_msg_ent, hv]
      · simp [handle_dbus_msg_ent, hv]
      · simp [handle_dbus_msg_ent, hv, List.take_of_length_le hlen]
  · subst ha
    dsimp only
    refine ⟨?_, get_vrrp_instance_eq_find? instances st vl family,
      fun hn => ?_, fun vrrp hv => ?_⟩
    · rcases hres : get_vrrp_instance instances st vl family with _ | vrrp0 <;>
        simp [handle_dbus_msg_ent, hres]
    · simp [handle_dbus_msg_ent, hn]
    · refine ⟨?_, fun hc => absurd hc (by decide),
        fun hc _ => absurd hc (by decide), fun _ => ?_⟩
      · simp [handle_dbus_msg_ent, hv]
      · simp [handle_dbus_msg_ent, hv]

/-- Witness for C5 at a concrete input: one live instance named "VI1"
on interface "eth0", vrid 7, IPv4, state 2; a GetStatus request for
canonical segment "eth0"/7/IPv4 succeeds with value 2 and leaves the
(empty) registry empty. -/
theorem claim_c5_witness :
    (handle_dbus_msg_ent [] [⟨['V', 'I', '1'], ['e', 't', 'h', '0'], 7,
        2, 2⟩]
      0 ⟨dbus_action_t.DBUS_GET_STATUS, dbus_error_t.DBUS_SUCCESS,
        ['e', 't', 'h', '0'], 7, GVariantArgs.vFamily 2⟩).2.1 =
      ([] : List (List Char × Nat)) ∧
    (handle_dbus_msg_ent [] [⟨['V', 'I', '1'], ['e', 't', 'h', '0'], 7,
        2, 2⟩]
      0 ⟨dbus_action_t.DBUS_GET_STATUS, dbus_error_t.DBUS_SUCCESS,
        ['e', 't', 'h', '0'], 7, GVariantArgs.vFamily 2⟩).1.reply =
      dbus_error_t.DBUS_SUCCESS ∧
    (handle_dbus_msg_ent [] [⟨['V', 'I', '1'], ['e', 't', 'h', '0'], 7,
        2, 2⟩]
      0 ⟨dbus_action_t.DBUS_GET_STATUS, dbus_error_t.DBUS_SUCCESS,
        ['e', 't', 'h', '0'], 7, GVariantArgs.vFamily 2⟩).1.val = 2 := by
  have h := claim_c5_get_resolution [] [⟨['V', 'I', '1'],
    ['e', 't', 'h', '0'], 7, 2, 2⟩] 0
    ⟨dbus_action_t.DBUS_GET_STATUS, dbus_error_t.DBUS_SUCCESS,
      ['e', 't', 'h', '0'], 7, GVariantArgs.vFamily 2⟩ 2
    (Or.inr rfl) rfl
  have hsome := h.2.2.2 ⟨['V', 'I', '1'], ['e', 't', 'h', '0'], 7, 2, 2⟩
    (by decide)
  exact ⟨h.1, hsome.1, hsome.2.2.2 rfl⟩

/-- The service object's interface name (the dbus-send examples in the
source give `org.keepalived.Vrrp1.Vrrp`); only its distinctness from the
instance interface matters here. -/
def DBUS_VRRP_INTERFACE : String := "org.keepalived.Vrrp1.Vrrp"

/-- The per-instance interface name (`org.keepalived.Vrrp1.Instance`). -/
def DBUS_VRRP_INSTANCE_INTERFACE : String := "org.keepalived.Vrrp1.Instance"

/-- What the external caller receives from `handle_method_call`: an
empty success (`g_dbus_method_invocation_return_value(invocation,
NULL)`), a bus error (`g_dbus_method_invocation_return_error`), or no
reply at all (the SendGarp branch returns without answering when the
Name property lookup failed). -/
inductive ExtResponse
  | emptySuccess
  | busError (msg : String)
  | noReply
deriving DecidableEq, Repr

/-- The logging `process_method_call` (vrrp_dbus.c lines 276-283) does
when the completed entry's reply code is not `DBUS_SUCCESS`: the domain
error is logged and nothing else happens with it. -/
def process_reply_logs (reply : dbus_error_t) : List String :=
  match reply with
  | dbus_error_t.DBUS_SUCCESS => []
  | dbus_error_t.DBUS_INTERFACE_NOT_FOUND =>
    ["Unable to find DBus requested interface"]
  | dbus_error_t.DBUS_OBJECT_ALREADY_EXISTS =>
    ["Unable to create DBus requested object with interface"]

/-- `handle_method_call` (vrrp_dbus.c lines 363-417), the service-thread
dispatcher.  For each recognized method it drives one bridge call with
`return_data = false` — so `process_method_call` frees the entry and
returns `NULL`, discarding the owner thread's `reply` code, which is the
`bridge_reply` parameter here — and then unconditionally answers the
external caller with an empty success.  Unknown methods or interfaces
get a typed "not implemented" bus error and never reach the bridge.
For SendGarp, `garp_name` is the result of the nested Name property
lookup: when it is `none` the handler logs and returns without
replying. -/
def handle_method_call (interface_name method_name : String)
    (garp_name : Option (List Char)) (_bridge_reply : dbus_error_t) :
    ExtResponse :=
  if interface_name = DBUS_VRRP_INTERFACE then
    if method_name = "PrintData" then ExtResponse.emptySuccess
    else if method_name = "PrintStats" then ExtResponse.emptySuccess
    else if method_name = "ReloadConfig" then ExtResponse.emptySuccess
    else if method_name = "CreateInstance" then ExtResponse.emptySuccess
    else if method_name = "DestroyInstance" then ExtResponse.emptySuccess
    else ExtResponse.busError "Method not implemented"
  else if interface_name = DBUS_VRRP_INSTANCE_INTERFACE then
    if method_name = "SendGarp" then
      match garp_name with
      | none => ExtResponse.noReply
      | some _ => ExtResponse.emptySuccess
    else ExtResponse.busError "Method not implemented"
  else ExtResponse.busError "Interface not implemented"

/-- Claim C3: for every external CreateInstance, DestroyInstance or
SendGarp call whose bridge reply code is a domain error
(InterfaceNotFound or AlreadyExists), the external caller receives an
empty success response — the dispatcher discards the reply code, which
is only logged inside `process_method_call` — and never a bus error. -/
theorem claim_c3_domain_errors_not_forwarded
    (bridge_reply : dbus_error_t) (name : List Char)
    (hr : bridge_reply = dbus_error_t.DBUS_INTERFACE_NOT_FOUND ∨
      bridge_reply = dbus_error_t.DBUS_OBJECT_ALREADY_EXISTS) :
    handle_method_call DBUS_VRRP_INTERFACE "CreateInstance" none
      bridge_reply = ExtResponse.emptySuccess ∧
    handle_method_call DBUS_VRRP_INTERFACE "DestroyInstance" none
      bridge_reply = ExtResponse.emptySuccess ∧
    handle_method_call DBUS_VRRP_INSTANCE_INTERFACE "SendGarp" (some name)
      bridge_reply = ExtResponse.emptySuccess ∧
    process_reply_logs bridge_reply ≠ [] := by
  rcases hr with hr | hr <;> subst hr <;>
    exact ⟨rfl, rfl, rfl, by simp [process_reply_logs]⟩

/-- Witness for C3 at a concrete input: a SendGarp whose bridge reply is
InterfaceNotFound still answers the external caller with an empty
success. -/
theorem claim_c3_witness :
    handle_method_call DBUS_VRRP_INSTANCE_INTERFACE "SendGarp"
      (some ['e', 't', 'h', '0'])
      dbus_error_t.DBUS_INTERFACE_NOT_FOUND = ExtResponse.emptySuccess :=
  (claim_c3_domain_errors_not_forwarded
    dbus_error_t.DBUS_INTERFACE_NOT_FOUND ['e', 't', 'h', '0']
    (Or.inl rfl)).2.2.1

/-- The two FIFO queues between the dbus service thread and the main
vrrp thread (`dbus_in_queue`, `dbus_out_queue`).  Entries are tracked by
identity (the MALLOCed address), modelled as a number. -/
structure bridge_state where
  in_queue : List Nat
  out_queue : List Nat
deriving DecidableEq, Repr

/-- `list_add`: append at the tail (keepalived lists are FIFO with
`LIST_HEAD` taking the oldest element). -/
def list_add (q : List Nat) (e : Nat) : List Nat := q ++ [e]

/-- `get_queue_ent` (vrrp_dbus.c lines 741-756): pop the head of the
inbound queue, or `none` when it is empty. -/
def get_queue_ent : List Nat → Option Nat × List Nat
  | [] => (none, [])
  | e :: rest => (some e, rest)

/-- `return_dbus_msg` (vrrp_dbus.c lines 731-739): append the completed
entry to the outbound queue (and write the reply-ready byte). -/
def return_dbus_msg (out_queue : List Nat) (ent : Nat) : List Nat :=
  list_add out_queue ent

/-- The queue discipline of one owner-thread wake-up (`handle_dbus_msg`
after the notification byte is read): pop one entry from the inbound
queue and, if there was one, execute it and push the same entry onto
the outbound queue. -/
def handle_dbus_wake (s : bridge_state) : bridge_state :=
  match get_queue_ent s.in_queue with
  | (some e, rest) =>
    { in_queue := rest, out_queue := return_dbus_msg s.out_queue e }
  | (none, rest) => { s with in_queue := rest }

/-- The outbound-pop step of `process_method_call` (vrrp_dbus.c lines
258-272), performed after the reply-ready byte is read: pop the head of
the outbound queue; if the queue was empty log "Empty dbus out queue",
if the popped entry is not the caller's entry log "Returned dbus entry
mismatch"; in every case the function goes on using the caller's own
entry `ent` — the message is only logged, never turned into an error
return. -/
def pop_out_entry (ent : Nat) (out_queue : List Nat) :
    List Nat × Option String × Nat :=
  match out_queue with
  | [] => ([], some "Empty dbus out queue", ent)
  | e :: rest =>
    (rest, if e ≠ ent then some "Returned dbus entry mismatch" else none, ent)

/-- One serially issued `call()` (`process_method_call`): push the new
entry onto the inbound queue, wake the owner thread (which runs
`handle_dbus_wake` before the service thread's blocking read of the
reply-ready byte returns), then pop from the outbound queue.  Returns
the final queue state, the correlation log message (if any) and the
entry the call goes on to use. -/
def serial_call (s : bridge_state) (ent : Nat) :
    bridge_state × Option String × Nat :=
  let s1 : bridge_state := { s with in_queue := list_add s.in_queue ent }
  let s2 := handle_dbus_wake s1
  let res := pop_out_entry ent s2.out_queue
  ({ s2 with out_queue := res.1 }, res.2.1, res.2.2)

/-- A sequence of serially issued calls, oldest first; collects each
call's correlation message and returned entry. -/
def serial_run (s : bridge_state) :
    List Nat → bridge_state × List (Option String × Nat)
  | [] => (s, [])
  | e :: es =>
    let r1 := serial_call s e
    let r2 := serial_run r1.1 es
    (r2.1, (r1.2.1, r1.2.2) :: r2.2)

theorem serial_call_empty (e : Nat) :
    serial_call ⟨[], []⟩ e = (⟨[], []⟩, none, e) := by
  simp [serial_call, handle_dbus_wake, get_queue_ent, return_dbus_msg,
    list_add, pop_out_entry]

/-- Claim C1: under the serial single-outstanding-call discipline
(queues start empty, each call completes before the next is issued),
every call pops from the outbound queue exactly the entry it pushed
onto the inbound queue — same identity, no correlation message — and
both queues are empty again after every call; moreover, from any queue
state whatsoever, a mismatching or empty outbound queue only produces a
log message: the call still returns the caller's own entry, never an
error. -/
theorem claim_c1_single_in_flight :
    (∀ ents : List Nat,
      serial_run ⟨[], []⟩ ents = (⟨[], []⟩, ents.map fun e => (none, e))) ∧
    (∀ (s : bridge_state) (ent : Nat), (serial_call s ent).2.2 = ent) := by
  constructor
  · intro ents
    induction ents with
    | nil => rfl
    | cons e es ih => simp [serial_run, serial_call_empty, ih]
  · intro s ent
    cases h : (handle_dbus_wake
        { s with in_queue := list_add s.in_queue ent }).out_queue with
    | nil => simp [serial_call, pop_out_entry, h]
    | cons x rest => simp [serial_call, pop_out_entry, h]

/-- `vrrp_stats`: the per-instance counters printed and optionally
reset by `vrrp_print_stats` (vrrp_print.c; the authentication counters
are present with `_WITH_VRRP_AUTH_` configured). -/
structure vrrp_stats where
  advert_rcvd : Nat
  advert_sent : Nat
  become_master : Nat
  release_master : Nat
  packet_len_err : Nat
  ip_ttl_err : Nat
  invalid_type_rcvd : Nat
  advert_interval_err : Nat
  addr_list_err : Nat
  invalid_authtype : Nat
  authtype_mismatch : Nat
  auth_failure : Nat
  pri_zero_rcvd : Nat
  pri_zero_sent : Nat
deriving DecidableEq, Repr

/-- The all-zero counters produced by
`memset(vrrp->stats, 0, sizeof(*vrrp->stats))`. -/
def zero_stats : vrrp_stats :=
  ⟨0, 0, 0, 0, 0, 0, 0, 0, 0, 0, 0, 0, 0, 0⟩

/-- One VRRP instance as `vrrp_print_stats` sees it: its name and its
counters. -/
structure stats_instance where
  iname : String
  stats : vrrp_stats
deriving DecidableEq, Repr

/-- The lines `vrrp_print_stats` writes for one instance (vrrp_print.c
lines 76-102), in order. -/
def stats_lines (iname : String) (s : vrrp_stats) : List String :=
  ["VRRP Instance: " ++ iname,
   "  Advertisements:",
   "    Received: " ++ toString s.advert_rcvd,
   "    Sent: " ++ toString s.advert_sent,
   "  Became master: " ++ toString s.become_master,
   "  Released master: " ++ toString s.release_master,
   "  Packet Errors:",
   "    Length: " ++ toString s.packet_len_err,
   "    TTL: " ++ toString s.ip_ttl_err,
   "    Invalid Type: " ++ toString s.invalid_type_rcvd,
   "    Advertisement Interval: " ++ toString s.advert_interval_err,
   "    Address List: " ++ toString s.addr_list_err,
   "  Authentication Errors:",
   "    Invalid Type: " ++ toString s.invalid_authtype,
   "    Type Mismatch: " ++ toString s.authtype_mismatch,
   "    Failure: " ++ toString s.auth_failure,
   "  Priority Zero:",
   "    Received: " ++ toString s.pri_zero_rcvd,
   "    Sent: " ++ toString s.pri_zero_sent]

/-- The `list_for_each_entry` loop of `vrrp_print_stats`: print each
instance's counters, then (after printing) zero that instance's
counters when `clear_stats` is set. -/
def vrrp_print_stats_loop (clear_stats : Bool) :
    List stats_instance → List String × List stats_instance
  | [] => ([], [])
  | v :: rest =>
    let out := stats_lines v.iname v.stats
    let v2 := if clear_stats then { v with stats := zero_stats } else v
    let res := vrrp_print_stats_loop clear_stats rest
    (out ++ res.1, v2 :: res.2)

/-- `vrrp_print_stats` (vrrp_print.c lines 55-108).  `open_ok` models
whether `fopen_safe` on the stats file succeeded: on failure the
function logs and returns at once, writing nothing and touching no
counters; on success it runs the per-instance loop.  Returns the lines
written to the stats file and the instances' counters afterwards. -/
def vrrp_print_stats (clear_stats open_ok : Bool)
    (instances : List stats_instance) : List String × List stats_instance :=
  if ¬ open_ok then ([], instances)
  else vrrp_print_stats_loop clear_stats instances

/-- Claim C9: when the stats file opens, `vrrp_print_stats` writes every
instance's counters (each instance's block, computed from its pre-call
counters, in list order); with the reset flag set every instance's
counters are zero afterwards, and with it clear every instance is left
exactly unchanged. -/
theorem claim_c9_print_stats (clear_stats open_ok : Bool)
    (instances : List stats_instance) (ho : open_ok = true) :
    (vrrp_print_stats clear_stats open_ok instances).1 =
      (instances.map fun v => stats_lines v.iname v.stats).flatten ∧
    (clear_stats = true →
      (vrrp_print_stats clear_stats open_ok instances).2 =
        instances.map fun v => { v with stats := zero_stats }) ∧
    (clear_stats = false →
      (vrrp_print_stats clear_stats open_ok instances).2 = instances) := by
  subst ho
  induction instances with
  | nil => exact ⟨rfl, fun _ => rfl, fun _ => rfl⟩
  | cons v rest ih =>
    refine ⟨?_, fun hc => ?_, fun hc => ?_⟩
    · simpa [vrrp_print_stats, vrrp_print_stats_loop] using ih.1
    · subst hc
      have := ih.2.1 rfl
      simpa [vrrp_print_stats, vrrp_print_stats_loop] using this
    · subst hc
      have := ih.2.2 rfl
      simpa [vrrp_print_stats, vrrp_print_stats_loop] using this

/-- Witness for C9 at a concrete input: one instance with a non-zero
counter; with the reset flag set its block is written and its counters
are zeroed. -/
theorem claim_c9_witness :
    (vrrp_print_stats true true
      [⟨"VI1", ⟨3, 1, 0, 0, 0, 0, 0, 0, 0, 0, 0, 0, 0, 0⟩⟩]).1 =
      stats_lines "VI1" ⟨3, 1, 0, 0, 0, 0, 0, 0, 0, 0, 0, 0, 0, 0⟩ ++ [] ∧
    (vrrp_print_stats true true
      [⟨"VI1", ⟨3, 1, 0, 0, 0, 0, 0, 0, 0, 0, 0, 0, 0, 0⟩⟩]).2 =
      [⟨"VI1", zero_stats⟩] := by
  have h := claim_c9_print_stats true true
    [⟨"VI1", ⟨3, 1, 0, 0, 0, 0, 0, 0, 0, 0, 0, 0, 0, 0⟩⟩] rfl
  exact ⟨h.1, h.2.1 rfl⟩

end VrrpDbus
